import Mathlib

/-!
Shallow embedding of the persistence and domain-service layer of the
synapse-knowledge-manager repository (Rust), for checking its specification.

Modelling conventions, shared by all definitions below:
* Each SQLite table is a Lean `List` of row records; `INSERT` appends at the
  end, so a note's SQLite `rowid` is its index in the list.
* Schema constraints (PRIMARY KEY / UNIQUE / FOREIGN KEY / CHECK from
  `database.rs`) are folded into the DAO insert operations, which return
  `Except Error`; a failing statement leaves the store unchanged.
* Every call of `chrono::Utc::now().timestamp()` in the source is modelled by
  an explicit `Int` parameter, threaded at the same call sites.
* `uuid::Uuid::new_v4()` is modelled by an explicit `String` parameter.
* The note-body file system is an association list keyed by the `content_path`
  relative to the data directory (the constant `data_dir` prefix is dropped);
  `fs::write` conses the new pair, `read` takes the first match, which gives
  overwrite semantics.
* Rust `char::is_alphanumeric` / `char::is_whitespace` / `to_lowercase` are
  modelled by `Char.isAlphanum` / `Char.isWhitespace` / `Char.toLower`; they
  agree on ASCII, which is all the theorems below exercise.
* Service operations return `Except Error α × Store`: the result paired with
  the store after the call (unchanged on early-return error paths, but
  keeping e.g. a file write that happened before a failing row insert, as in
  the source, where the two are not transactional).
-/

deriving instance DecidableEq for Except

/-- Error enum translated from `src/src/core/error.rs`. Note it has exactly
five variants: `Database`, `Io`, `NotFound`, `InvalidInput`, `Storage` —
there is no `Conflict` variant. -/
inductive Error where
  | Database (msg : String)
  | Io (msg : String)
  | NotFound (msg : String)
  | InvalidInput (msg : String)
  | Storage (msg : String)
deriving DecidableEq, Repr

/-- Note record, from `src/src/core/models.rs`. -/
structure Note where
  id : String
  title : String
  content_path : String
  created_at : Int
  updated_at : Int
  word_count : Int
  is_deleted : Bool
  deleted_at : Option Int
deriving DecidableEq, Repr

/-- Block record, from `src/src/core/models.rs`. -/
structure Block where
  id : String
  note_id : String
  block_type : String
  content : String
  position : Int
  created_at : Int
  updated_at : Int
  is_deleted : Bool
  deleted_at : Option Int
deriving DecidableEq, Repr

/-- Folder record, from `src/src/core/models.rs`. -/
structure Folder where
  id : String
  name : String
  parent_id : Option String
  path : String
  created_at : Int
  updated_at : Int
  position : Int
deriving DecidableEq, Repr

/-- Tag record, from `src/src/core/models.rs`. -/
structure Tag where
  id : String
  name : String
  color : Option String
  icon : Option String
  created_at : Int
deriving DecidableEq, Repr

/-- Link record, from `src/src/core/models.rs`. -/
structure Link where
  id : String
  source_note_id : String
  target_note_id : Option String
  source_block_id : Option String
  target_block_id : Option String
  link_type : String
  link_text : Option String
  created_at : Int
deriving DecidableEq, Repr

/-- Row of the `note_folders` junction table (`database.rs`,
`create_note_folders_table`). -/
structure NoteFolderRow where
  note_id : String
  folder_id : String
  is_primary : Bool
  position : Int
  created_at : Int
deriving DecidableEq, Repr

/-- Row of the external-content FTS5 shadow table `notes_fts`
(`database.rs`, `create_fts_tables`): the full-text index entry for the
note stored at `rowid` in the `notes` table. -/
structure FtsRow where
  rowid : Nat
  note_id : String
  title : String
  content : String
deriving DecidableEq, Repr

/-- The relational store plus the note-body file system.  Tables are those of
`init_database` that the claims touch; all start empty (`CREATE TABLE`
creates empty tables). -/
structure Store where
  notes : List Note
  blocks : List Block
  folders : List Folder
  tags : List Tag
  links : List Link
  note_folders : List NoteFolderRow
  notes_fts : List FtsRow
  files : List (String × String)
deriving DecidableEq, Repr

/-- Fresh store as produced by `DatabaseManager::new` / `in_memory`:
`init_database` creates all tables empty (including the FTS shadow tables,
for which no synchronisation triggers are created). -/
def emptyStore : Store :=
  { notes := [], blocks := [], folders := [], tags := [], links := [],
    note_folders := [], notes_fts := [], files := [] }

/-- Write a note-body file (`fs::write`): later writes shadow earlier ones. -/
def writeFile (files : List (String × String)) (path content : String) :
    List (String × String) :=
  (path, content) :: files

/-- Read a note-body file if it exists (`content_path.exists()` plus
`fs::read_to_string`). -/
def readFile? (files : List (String × String)) (path : String) :
    Option String :=
  (files.find? (fun e => e.1 == path)).map (fun e => e.2)

/-- Note::new from `models.rs`. -/
def Note.new (id title content_path : String) (now : Int) : Note :=
  { id := id, title := title, content_path := content_path,
    created_at := now, updated_at := now, word_count := 0,
    is_deleted := false, deleted_at := none }

/-- Note::update_title from `models.rs`. -/
def Note.update_title (n : Note) (title : String) (now : Int) : Note :=
  { n with title := title, updated_at := now }

/-- Note::update_word_count from `models.rs`. -/
def Note.update_word_count (n : Note) (wc : Int) (now : Int) : Note :=
  { n with word_count := wc, updated_at := now }

/-- Tag::new from `models.rs`. -/
def Tag.new (id name : String) (now : Int) : Tag :=
  { id := id, name := name, color := none, icon := none, created_at := now }

/-- Folder::new from `models.rs`. -/
def Folder.new (id name : String) (parent_id : Option String) (path : String)
    (now : Int) : Folder :=
  { id := id, name := name, parent_id := parent_id, path := path,
    created_at := now, updated_at := now, position := 0 }

/-- Link::new_note_link from `models.rs`. -/
def Link.new_note_link (id source_note_id target_note_id : String)
    (link_text : Option String) (now : Int) : Link :=
  { id := id, source_note_id := source_note_id,
    target_note_id := some target_note_id, source_block_id := none,
    target_block_id := none, link_type := "note_link",
    link_text := link_text, created_at := now }

/-- NoteDao::create (`dao.rs`): INSERT INTO notes, failing on the `id`
primary key. -/
def NoteDao.create (st : Store) (note : Note) : Except Error Store :=
  if st.notes.any (fun m => m.id == note.id) then
    .error (.Database "UNIQUE constraint failed: notes.id")
  else
    .ok { st with notes := st.notes ++ [note] }

/-- NoteDao::get_by_id (`dao.rs`): SELECT ... WHERE id = ?1, with
`AND is_deleted = 0` appended unless `include_deleted`; first row. -/
def NoteDao.get_by_id (st : Store) (id : String) (include_deleted : Bool) :
    Option Note :=
  st.notes.find? (fun n => n.id == id && (include_deleted || !n.is_deleted))

/-- NoteDao::update (`dao.rs`): UPDATE notes SET title, content_path,
updated_at, word_count, is_deleted, deleted_at WHERE id = ?1 (`created_at`
is not in the SET list). -/
def NoteDao.update (st : Store) (note : Note) : Store :=
  { st with notes := st.notes.map (fun m =>
      if m.id == note.id then
        { m with title := note.title, content_path := note.content_path,
                 updated_at := note.updated_at,
                 word_count := note.word_count,
                 is_deleted := note.is_deleted,
                 deleted_at := note.deleted_at }
      else m) }

/-- NoteDao::soft_delete (`dao.rs`): UPDATE notes SET is_deleted = 1,
deleted_at = now WHERE id = ?1 (no error when no row matches). -/
def NoteDao.soft_delete (st : Store) (id : String) (now : Int) : Store :=
  { st with notes := st.notes.map (fun m =>
      if m.id == id then { m with is_deleted := true, deleted_at := some now }
      else m) }

/-- NoteDao::restore (`dao.rs`): UPDATE notes SET is_deleted = 0,
deleted_at = NULL WHERE id = ?1 (no error when no row matches). -/
def NoteDao.restore (st : Store) (id : String) : Store :=
  { st with notes := st.notes.map (fun m =>
      if m.id == id then { m with is_deleted := false, deleted_at := none }
      else m) }

/-- TagDao::create (`dao.rs`): INSERT INTO tags, failing on the `id` primary
key or the UNIQUE `name` column (`create_tags_table`). -/
def TagDao.create (st : Store) (tag : Tag) : Except Error Store :=
  if st.tags.any (fun t => t.id == tag.id || t.name == tag.name) then
    .error (.Database "UNIQUE constraint failed: tags")
  else
    .ok { st with tags := st.tags ++ [tag] }

/-- TagDao::get_by_name (`dao.rs`): SELECT ... WHERE name = ?1, first row. -/
def TagDao.get_by_name (st : Store) (name : String) : Option Tag :=
  st.tags.find? (fun t => t.name == name)

/-- CHECK constraint of the `links` table (`create_links_table`). -/
def linkCheck (l : Link) : Bool :=
  (l.link_type == "note_link" && l.target_note_id.isSome) ||
  (l.link_type == "block_reference" && l.target_block_id.isSome) ||
  (l.link_type == "database_relation" && l.target_note_id.isSome)

/-- LinkDao::create (`dao.rs`): INSERT INTO links, with the primary key,
foreign keys to `notes`/`blocks` and the CHECK constraint of
`create_links_table`. -/
def LinkDao.create (st : Store) (link : Link) : Except Error Store :=
  if st.links.any (fun l => l.id == link.id) then
    .error (.Database "UNIQUE constraint failed: links.id")
  else if !(st.notes.any (fun n => n.id == link.source_note_id)) then
    .error (.Database "FOREIGN KEY constraint failed")
  else if (match link.target_note_id with
           | some t => !(st.notes.any (fun n => n.id == t))
           | none => false) then
    .error (.Database "FOREIGN KEY constraint failed")
  else if (match link.source_block_id with
           | some b => !(st.blocks.any (fun x => x.id == b))
           | none => false) then
    .error (.Database "FOREIGN KEY constraint failed")
  else if (match link.target_block_id with
           | some b => !(st.blocks.any (fun x => x.id == b))
           | none => false) then
    .error (.Database "FOREIGN KEY constraint failed")
  else if !(linkCheck link) then
    .error (.Database "CHECK constraint failed: links")
  else
    .ok { st with links := st.links ++ [link] }

/-- NoteFolderDao::add (`relation_dao.rs`): INSERT INTO note_folders, with
the (note_id, folder_id) primary key and foreign keys to notes/folders. -/
def NoteFolderDao.add (st : Store) (note_id folder_id : String)
    (is_primary : Bool) (position now : Int) : Except Error Unit × Store :=
  if st.note_folders.any
      (fun r => r.note_id == note_id && r.folder_id == folder_id) then
    (.error (.Database "UNIQUE constraint failed: note_folders"), st)
  else if !(st.notes.any (fun n => n.id == note_id)) ||
          !(st.folders.any (fun f => f.id == folder_id)) then
    (.error (.Database "FOREIGN KEY constraint failed"), st)
  else
    (.ok (), { st with note_folders := st.note_folders ++
        [{ note_id := note_id, folder_id := folder_id,
           is_primary := is_primary, position := position,
           created_at := now }] })

/-- First statement of NoteFolderDao::set_primary (`relation_dao.rs`):
UPDATE note_folders SET is_primary = 0 WHERE note_id = ?1. -/
def NoteFolderDao.set_primary_step1 (st : Store) (note_id : String) : Store :=
  { st with note_folders := st.note_folders.map (fun r =>
      if r.note_id == note_id then { r with is_primary := false } else r) }

/-- Second statement of NoteFolderDao::set_primary (`relation_dao.rs`):
UPDATE note_folders SET is_primary = 1 WHERE note_id = ?1 AND
folder_id = ?2. -/
def NoteFolderDao.set_primary_step2 (st : Store) (note_id folder_id : String) :
    Store :=
  { st with note_folders := st.note_folders.map (fun r =>
      if r.note_id == note_id && r.folder_id == folder_id then
        { r with is_primary := true }
      else r) }

/-- NoteFolderDao::set_primary (`relation_dao.rs`): the two UPDATE
statements run one after the other, with no transaction around them. -/
def NoteFolderDao.set_primary (st : Store) (note_id folder_id : String) :
    Store :=
  NoteFolderDao.set_primary_step2
    (NoteFolderDao.set_primary_step1 st note_id) note_id folder_id

/-- Character kept verbatim by NoteService::slugify (`services.rs`): the
closure keeps `c` when `c.is_alphanumeric() || c == '-' || c == '_'`. -/
def slugKeep (c : Char) : Bool :=
  c.isAlphanum || c == '-' || c == '_'

/-- The map step of NoteService::slugify: any other character becomes a
hyphen. -/
def slugMap (c : Char) : Char :=
  if slugKeep c then c else '-'

/-- One step of the fold in NoteService::slugify: push `c` unless the
accumulator already ends in a hyphen and `c` is a hyphen. -/
def slugFoldStep (acc : List Char) (c : Char) : List Char :=
  if !(acc.getLast? == some '-') || c != '-' then acc ++ [c] else acc

/-- The fold of NoteService::slugify, collapsing consecutive hyphens. -/
def slugFold (l : List Char) : List Char :=
  l.foldl slugFoldStep []

/-- The `trim_matches('-')` step of NoteService::slugify: drop leading and
trailing hyphens. -/
def trimHyphens (l : List Char) : List Char :=
  ((l.dropWhile (fun c => c == '-')).reverse.dropWhile
    (fun c => c == '-')).reverse

/-- NoteService::slugify (`services.rs`): lowercase, map characters other
than alphanumerics, hyphen and underscore to hyphens, collapse consecutive
hyphens, trim hyphens at both ends, keep the first 50 characters
(`to_lowercase` is modelled per character). -/
def NoteService.slugify (title : String) : String :=
  String.mk ((trimHyphens (slugFold ((title.data.map Char.toLower).map slugMap))).take 50)

/-- NoteService::count_words (`services.rs`):
`content.split_whitespace().count()`: split at whitespace characters and
count the nonempty pieces. -/
def NoteService.count_words (content : String) : Int :=
  (((content.data.splitOnP Char.isWhitespace).filter
      (fun t => !t.isEmpty)).length : Int)

/-- Note joined with its file content (`NoteWithContent` in
`services.rs`). -/
structure NoteWithContent where
  note : Note
  content : String
deriving DecidableEq, Repr

/-- NoteService::create (`services.rs`): build the content path from the
uuid and the slug of the title, write the file, compute the word count,
insert the row.  `tNew` and `tCount` are the two `Utc::now()` calls (inside
`Note::new` and `update_word_count`); on a failed insert the file write is
kept, as in the source, where the two are not atomic. -/
def NoteService.create (st : Store) (uuid title content : String)
    (tNew tCount : Int) : Except Error Note × Store :=
  let note_id := "note-" ++ uuid
  let file_name := uuid ++ "-" ++ NoteService.slugify title ++ ".md"
  let content_path := "notes/" ++ file_name
  let note0 := Note.new note_id title content_path tNew
  let st1 := { st with files := writeFile st.files content_path content }
  let note1 := note0.update_word_count (NoteService.count_words content) tCount
  match NoteDao.create st1 note1 with
  | .ok st2 => (.ok note1, st2)
  | .error e => (.error e, st1)

/-- NoteService::get_by_id (`services.rs`): fetch the row, then read the
body file, returning the empty string when the file is absent. -/
def NoteService.get_by_id (st : Store) (id : String)
    (include_deleted : Bool) : Option NoteWithContent :=
  match NoteDao.get_by_id st id include_deleted with
  | some note =>
      some { note := note,
             content := (readFile? st.files note.content_path).getD "" }
  | none => none

/-- NoteService::update (`services.rs`): fetch the non-deleted row or fail
with NotFound; optionally retitle (`tTitle` is `update_title`'s clock
reading); optionally rewrite the file and recompute the word count
(`tCount`); then UPDATE the row. -/
def NoteService.update (st : Store) (id : String) (title : Option String)
    (content : Option String) (tTitle tCount : Int) :
    Except Error Unit × Store :=
  match NoteDao.get_by_id st id false with
  | none => (.error (.NotFound ("Note not found: " ++ id)), st)
  | some note =>
    let note1 := match title with
      | some t => note.update_title t tTitle
      | none => note
    let withContent := match content with
      | some c =>
          (note1.update_word_count (NoteService.count_words c) tCount,
           writeFile st.files note1.content_path c)
      | none => (note1, st.files)
    (.ok (), NoteDao.update { st with files := withContent.2 } withContent.1)

/-- NoteService::delete (`services.rs`): plain pass-through to
NoteDao::soft_delete; succeeds whether or not a row with this id exists. -/
def NoteService.delete (st : Store) (id : String) (now : Int) :
    Except Error Unit × Store :=
  (.ok (), NoteDao.soft_delete st id now)

/-- NoteService::restore (`services.rs`): plain pass-through to
NoteDao::restore; succeeds whether or not a row with this id exists. -/
def NoteService.restore (st : Store) (id : String) :
    Except Error Unit × Store :=
  (.ok (), NoteDao.restore st id)

/-- A single-quote character, written via its code point. -/
def squote : String :=
  (Char.ofNat 39).toString

/-- TagService::create (`services.rs`): reject with InvalidInput when a tag
with the same name exists, otherwise insert a fresh tag. -/
def TagService.create (st : Store) (uuid name : String) (now : Int) :
    Except Error Tag × Store :=
  if (TagDao.get_by_name st name).isSome then
    (.error (.InvalidInput
        ("Tag " ++ squote ++ name ++ squote ++ " already exists")), st)
  else
    let tag := Tag.new ("tag-" ++ uuid) name now
    match TagDao.create st tag with
    | .ok st1 => (.ok tag, st1)
    | .error e => (.error e, st)

/-- LinkService::create_note_link (`services.rs`): validate that source and
target notes exist and are not soft-deleted (NoteDao::get_by_id with
include_deleted = false), naming the missing side in the NotFound error;
only then insert the link row. -/
def LinkService.create_note_link (st : Store)
    (uuid source_note_id target_note_id : String)
    (link_text : Option String) (now : Int) : Except Error Link × Store :=
  if (NoteDao.get_by_id st source_note_id false).isNone then
    (.error (.NotFound ("Source note not found: " ++ source_note_id)), st)
  else if (NoteDao.get_by_id st target_note_id false).isNone then
    (.error (.NotFound ("Target note not found: " ++ target_note_id)), st)
  else
    let link := Link.new_note_link ("link-" ++ uuid) source_note_id
        target_note_id link_text now
    match LinkDao.create st link with
    | .ok st1 => (.ok link, st1)
    | .error e => (.error e, st)

/-- Insertion step for ORDER BY updated_at DESC (stable). -/
def insertByUpdatedDesc (n : Note) : List Note → List Note
  | [] => [n]
  | m :: ms =>
      if n.updated_at ≥ m.updated_at then n :: m :: ms
      else m :: insertByUpdatedDesc n ms

/-- ORDER BY updated_at DESC over a note list. -/
def sortByUpdatedDesc (l : List Note) : List Note :=
  l.foldr insertByUpdatedDesc []

/-- SearchService::search_notes (`services.rs`): rows of `notes_fts`
matching the query (the FTS5 MATCH semantics is the abstract predicate
`matchQ`), inner-joined to `notes` on rowid, filtered by `is_deleted`
unless `include_deleted`, ordered by `updated_at` DESC. -/
def SearchService.search_notes (matchQ : FtsRow → Bool) (st : Store)
    (include_deleted : Bool) : List Note :=
  let matched := st.notes_fts.filter matchQ
  let joined := (st.notes.enum.filter (fun p =>
      matched.any (fun f => f.rowid == p.1) &&
      (include_deleted || !p.2.is_deleted))).map (fun p => p.2)
  sortByUpdatedDesc joined

/-- One call in a C2-style call sequence against the note_folders table:
either NoteFolderDao::add or NoteFolderDao::set_primary, with the
timestamp of the add recorded in the op. -/
inductive NFOp where
  | add (note_id folder_id : String) (is_primary : Bool) (position now : Int)
  | set_primary (note_id folder_id : String)
deriving DecidableEq, Repr

/-- Apply one call; a failed add (constraint violation) leaves the store
unchanged, exactly as the single failed INSERT does. -/
def applyNFOp (st : Store) : NFOp → Store
  | .add n f p pos now => (NoteFolderDao.add st n f p pos now).2
  | .set_primary n f => NoteFolderDao.set_primary st n f

/-- Apply a finite sequence of add / set_primary calls. -/
def applyNFOps (st : Store) (ops : List NFOp) : Store :=
  ops.foldl applyNFOp st

/-- Number of note_folders rows of `note_id` with is_primary = true. -/
def primaryCount (st : Store) (note_id : String) : Nat :=
  st.note_folders.countP (fun r => r.note_id == note_id && r.is_primary)

/-- Number of note_folders rows with the given (note_id, folder_id) pair. -/
def pairCount (st : Store) (note_id folder_id : String) : Nat :=
  st.note_folders.countP
    (fun r => r.note_id == note_id && r.folder_id == folder_id)

/-- Character kept verbatim by the amended slug description: alphanumerics
and underscores (claim C8 as amended; the original claim said alphanumerics
only). -/
def specKeep (c : Char) : Bool :=
  c.isAlphanum || c == '_'

/-- Modelled from the amended claim wording: walk the lowercased title and
collapse every maximal run of characters that are neither alphanumeric nor
underscore to a single hyphen; the flag records being inside such a run. -/
def specCollapseAux : Bool → List Char → List Char
  | _, [] => []
  | inRun, c :: rest =>
      if specKeep c then c :: specCollapseAux false rest
      else if inRun then specCollapseAux true rest
      else '-' :: specCollapseAux true rest

/-- Slug as described by the amended claim C8: lowercase, collapse every
run of non-alphanumeric non-underscore characters to a single hyphen
(alphanumerics and underscores kept verbatim), trim hyphens at both ends,
cap at 50 characters. -/
def slugify_spec (title : String) : String :=
  String.mk ((trimHyphens (specCollapseAux false
    (title.data.map Char.toLower))).take 50)

/-- Modelled from the original claim wording of C8: collapse every maximal
run of non-alphanumeric characters (underscore included) to a single
hyphen. -/
def claimedCollapseAux : Bool → List Char → List Char
  | _, [] => []
  | inRun, c :: rest =>
      if c.isAlphanum then c :: claimedCollapseAux false rest
      else if inRun then claimedCollapseAux true rest
      else '-' :: claimedCollapseAux true rest

/-- Slug derivation exactly as claim C8 states it: lowercase, collapse every
run of non-alphanumeric characters to a single hyphen, trim hyphens, cap at
50 characters. -/
def slugify_claimed (title : String) : String :=
  String.mk ((trimHyphens (claimedCollapseAux false
    (title.data.map Char.toLower))).take 50)

/-- State-machine reading of the hyphen-collapsing fold of slugify: the flag
records whether the last emitted character was a hyphen.  Used to relate the
fold in the source to the run-collapsing description. -/
def collapseRun : Bool → List Char → List Char
  | _, [] => []
  | lastHyphen, c :: rest =>
      if lastHyphen && c == '-' then collapseRun lastHyphen rest
      else c :: collapseRun (c == '-') rest

/-- A store holding one note and two folders, the smallest context in which
note_folders rows for two folders can be inserted. -/
def nfStore : Store :=
  { emptyStore with
    notes := [Note.new "note-1" "A" "notes/a.md" 0],
    folders := [Folder.new "folder-1" "F1" none "/F1" 0,
                Folder.new "folder-2" "F2" none "/F2" 0] }

/-- nfStore with note-1 filed in both folders and folder-1 primary: the
state just before a set_primary switch towards folder-2. -/
def spStore : Store :=
  { nfStore with note_folders :=
      [{ note_id := "note-1", folder_id := "folder-1", is_primary := true,
         position := 0, created_at := 0 },
       { note_id := "note-1", folder_id := "folder-2", is_primary := false,
         position := 1, created_at := 0 }] }

/-- Fresh store after NoteService::create of a note titled "Quarterly
Report" (the C1 scenario). -/
def c1Store : Store :=
  (NoteService.create emptyStore "u1" "Quarterly Report"
    "the quarterly report body" 0 0).2

/-- Store with an active note note-a and a soft-deleted note note-b, for
exercising link-endpoint validation. -/
def c7Store : Store :=
  { emptyStore with notes :=
      [Note.new "note-a" "A" "notes/a.md" 0,
       { Note.new "note-b" "B" "notes/b.md" 0 with
           is_deleted := true, deleted_at := some 5 }] }

/-- Store holding a single tag named Rust, produced by a first successful
TagService::create. -/
def tagStore : Store :=
  (TagService.create emptyStore "u1" "Rust" 0).2

/-- Store holding one active note, for round-trip and frame witnesses. -/
def wStore : Store :=
  { emptyStore with notes := [Note.new "note-1" "T" "notes/t.md" 0] }

/-- C1: after NoteService::create of a note titled "Quarterly Report" on a
fresh store, the note row is present and visible, yet
SearchService::search_notes returns the empty list for every query and
every FTS match semantics, because `create_fts_tables` declares the
external-content FTS5 tables without any synchronisation triggers and no
operation ever inserts into `notes_fts`, so the full-text index stays
empty: the claimed search result (the created note) is never produced. -/
theorem search_after_create_returns_nothing :
    (NoteDao.get_by_id c1Store "note-u1" false).isSome = true ∧
    ∀ (matchQ : FtsRow → Bool) (include_deleted : Bool),
      SearchService.search_notes matchQ c1Store include_deleted = [] := by
  refine ⟨by decide, ?_⟩
  intro matchQ include_deleted
  have hfts : c1Store.notes_fts = [] := by decide
  simp [SearchService.search_notes, hfts, sortByUpdatedDesc]

/-- C2 counterexample: two successful NoteFolderDao::add calls with
is_primary = true leave two rows of the same note with is_primary = true,
so the claim that any add/set_primary sequence keeps at most one primary
row is false as stated. -/
theorem add_primary_twice_two_primaries :
    primaryCount (applyNFOps nfStore
      [NFOp.add "note-1" "folder-1" true 0 0,
       NFOp.add "note-1" "folder-2" true 1 0]) "note-1" = 2 := by
  decide

/-- C3: NoteFolderDao::set_primary runs its two UPDATE statements with no
transaction around them, so when the second statement never runs (an error
after the first), the persisted note_folders state has zero primary rows
for the note, although it had exactly one before the call. -/
theorem set_primary_interrupt_zero_primaries :
    primaryCount spStore "note-1" = 1 ∧
    primaryCount (NoteFolderDao.set_primary_step1 spStore "note-1")
      "note-1" = 0 := by
  decide

/-- C4 counterexample: creating a tag whose name already exists fails with
Error.InvalidInput, not with a Conflict error (the error type has no
Conflict variant), while exactly one row with that name remains. -/
theorem tag_create_duplicate_is_invalid_input :
    (TagService.create tagStore "u2" "Rust" 1).1 =
      .error (.InvalidInput
        ("Tag " ++ squote ++ "Rust" ++ squote ++ " already exists")) ∧
    ((TagService.create tagStore "u2" "Rust" 1).2.tags.countP
      (fun t => t.name == "Rust")) = 1 := by
  decide

/-- C9 counterexample: NoteService::delete and NoteService::restore on an
id with no note row return Ok and leave the store unchanged, instead of
the claimed NotFound error naming the id. -/
theorem delete_missing_id_returns_ok :
    NoteService.delete emptyStore "note-x" 7 = (.ok (), emptyStore) ∧
    NoteService.restore emptyStore "note-x" = (.ok (), emptyStore) := by
  decide

/-- C8 counterexample: the title "A_B" slugifies to "a_b" because the
source keeps underscores verbatim, while the claimed rule (collapse every
run of non-alphanumeric characters to a single hyphen) would give
"a-b". -/
theorem slugify_underscore_counterexample :
    NoteService.slugify "A_B" = "a_b" ∧
    slugify_claimed "A_B" = "a-b" ∧
    NoteService.slugify "A_B" ≠ slugify_claimed "A_B" := by
  decide

/-- C7: LinkService::create_note_link returns NotFound naming the missing
side and leaves the store (the links table included) unchanged whenever the
source note, or else the target note, is absent or soft-deleted (looked up
with include_deleted = false). -/
theorem create_note_link_missing_endpoint (st : Store)
    (uuid src tgt : String) (txt : Option String) (now : Int) :
    ((NoteDao.get_by_id st src false).isNone = true →
      LinkService.create_note_link st uuid src tgt txt now =
        (.error (.NotFound ("Source note not found: " ++ src)), st)) ∧
    ((NoteDao.get_by_id st src false).isSome = true →
      (NoteDao.get_by_id st tgt false).isNone = true →
      LinkService.create_note_link st uuid src tgt txt now =
        (.error (.NotFound ("Target note not found: " ++ tgt)), st)) := by
  constructor
  · intro h
    simp [LinkService.create_note_link, h]
  · intro h1 h2
    cases ho : NoteDao.get_by_id st src false with
    | none => rw [ho] at h1; simp at h1
    | some v => simp [LinkService.create_note_link, ho, h2]

/-- Witness for C7: on a store with an active note-a and a soft-deleted
note-b, linking from an absent note-x fails naming the source, and linking
from note-a to the soft-deleted note-b fails naming the target; the store
is unchanged both times. -/
theorem create_note_link_missing_endpoint_witness :
    LinkService.create_note_link c7Store "u1" "note-x" "note-a" none 0 =
      (.error (.NotFound ("Source note not found: " ++ "note-x")), c7Store) ∧
    LinkService.create_note_link c7Store "u2" "note-a" "note-b" none 0 =
      (.error (.NotFound ("Target note not found: " ++ "note-b")), c7Store) :=
  ⟨(create_note_link_missing_endpoint c7Store "u1" "note-x" "note-a" none 0).1
      (by decide),
   (create_note_link_missing_endpoint c7Store "u2" "note-a" "note-b" none 0).2
      (by decide) (by decide)⟩

/-- C9 as amended: when no note row has the given id, NoteService::delete
and NoteService::restore are silent no-ops: both return Ok and leave the
store unchanged (the UPDATE matches zero rows); no NotFound is raised. -/
theorem delete_restore_missing_id_noop (st : Store) (id : String) (now : Int)
    (habsent : ∀ m ∈ st.notes, m.id ≠ id) :
    NoteService.delete st id now = (.ok (), st) ∧
    NoteService.restore st id = (.ok (), st) := by
  have hid : ∀ m ∈ st.notes, (m.id == id) = false := by
    intro m hm
    simpa using habsent m hm
  constructor
  · have hmap : st.notes.map (fun m =>
        if m.id == id then
          { m with is_deleted := true, deleted_at := some now }
        else m) = st.notes := by
      have h := List.map_congr_left (l := st.notes)
        (f := fun m => if m.id == id then
            { m with is_deleted := true, deleted_at := some now } else m)
        (g := fun m => m) (by intro m hm; simp [hid m hm])
      simpa using h
    unfold NoteService.delete NoteDao.soft_delete
    rw [hmap]
  · have hmap : st.notes.map (fun m =>
        if m.id == id then
          { m with is_deleted := false, deleted_at := none }
        else m) = st.notes := by
      have h := List.map_congr_left (l := st.notes)
        (f := fun m => if m.id == id then
            { m with is_deleted := false, deleted_at := none } else m)
        (g := fun m => m) (by intro m hm; simp [hid m hm])
      simpa using h
    unfold NoteService.restore NoteDao.restore
    rw [hmap]

/-- Witness for C9 as amended: deleting and restoring an absent id on a
one-note store returns Ok with the store unchanged. -/
theorem delete_restore_missing_id_noop_witness :
    NoteService.delete wStore "note-x" 3 = (.ok (), wStore) ∧
    NoteService.restore wStore "note-x" = (.ok (), wStore) :=
  delete_restore_missing_id_noop wStore "note-x" 3 (by decide)

/-- C4 as amended: TagService::create of a name that already has a tag row
fails with InvalidInput (the error enum has no Conflict variant), leaves
the store untouched, and exactly one tag row with that name remains. -/
theorem tag_create_duplicate_amended (st : Store) (uuid name : String)
    (now : Int)
    (hdup : (TagDao.get_by_name st name).isSome = true)
    (hone : st.tags.countP (fun t => t.name == name) = 1) :
    TagService.create st uuid name now =
      (.error (.InvalidInput
        ("Tag " ++ squote ++ name ++ squote ++ " already exists")), st) ∧
    (TagService.create st uuid name now).2.tags.countP
      (fun t => t.name == name) = 1 := by
  have h : TagService.create st uuid name now =
      (.error (.InvalidInput
        ("Tag " ++ squote ++ name ++ squote ++ " already exists")), st) := by
    simp [TagService.create, hdup]
  exact ⟨h, by rw [h]; exact hone⟩

/-- Witness for C4 as amended: a second create of the tag name Rust fails
with InvalidInput and one row named Rust remains. -/
theorem tag_create_duplicate_amended_witness :
    TagService.create tagStore "u2" "Rust" 1 =
      (.error (.InvalidInput
        ("Tag " ++ squote ++ "Rust" ++ squote ++ " already exists")),
       tagStore) ∧
    (TagService.create tagStore "u2" "Rust" 1).2.tags.countP
      (fun t => t.name == "Rust") = 1 :=
  tag_create_duplicate_amended tagStore "u2" "Rust" 1 (by decide) (by decide)

/-- The fold of slugify equals the last-emitted-was-hyphen state machine:
folding from `acc` appends the collapsed remainder. -/
theorem slugFold_eq_collapseRun (l : List Char) :
    ∀ acc : List Char,
      l.foldl slugFoldStep acc =
        acc ++ collapseRun (acc.getLast? == some '-') l := by
  induction l with
  | nil => intro acc; simp [collapseRun]
  | cons c l ih =>
    intro acc
    rw [List.foldl_cons, ih (slugFoldStep acc c)]
    cases hB : (acc.getLast? == some '-') <;> cases hC : (c == '-') <;>
      simp_all [slugFoldStep, collapseRun, List.getLast?_concat]

/-- On a slugMap image, collapsing consecutive hyphens is run-collapsing on
the original characters: each maximal run of non-kept characters becomes
one hyphen. -/
theorem collapseRun_map_slugMap (l : List Char) :
    ∀ b : Bool, collapseRun b (l.map slugMap) = specCollapseAux b l := by
  induction l with
  | nil => intro b; simp [collapseRun, specCollapseAux]
  | cons c l ih =>
    intro b
    by_cases hk : specKeep c = true
    · have hcne : c ≠ '-' := by
        intro h
        subst h
        simp [specKeep] at hk
      have hne : (c == '-') = false := by simp [hcne]
      have hmap : slugMap c = c := by
        have h2 : slugKeep c = true := by
          rcases Bool.or_eq_true .. |>.mp hk with h | h
          · simp [slugKeep, h]
          · simp [slugKeep, h]
        simp [slugMap, h2]
      simp [List.map_cons, hmap, collapseRun, hne, specCollapseAux, hk, ih]
    · have hmap : slugMap c = '-' := by
        by_cases hc : c = '-'
        · subst hc; decide
        · have hkeep : slugKeep c = false := by
            simp [specKeep, Bool.or_eq_true] at hk
            simp [slugKeep, Bool.or_eq_true, hk.1, hk.2, hc]
          simp [slugMap, hkeep]
      cases b <;>
        simp [List.map_cons, hmap, collapseRun, specCollapseAux, hk, ih]

/-- The slug computed by the source equals the slug described by the
amended claim wording, for every title. -/
theorem slugify_eq_slugify_spec (title : String) :
    NoteService.slugify title = slugify_spec title := by
  unfold NoteService.slugify slugify_spec slugFold
  rw [slugFold_eq_collapseRun]
  rw [show (([] : List Char).getLast? == some '-') = false from rfl]
  rw [List.nil_append, collapseRun_map_slugMap]

/-- NoteService::create always leaves the content file at the slug-derived
path, whether or not the row insert succeeded. -/
theorem create_files_eq (st : Store) (uuid title content : String)
    (t1 t2 : Int) :
    (NoteService.create st uuid title content t1 t2).2.files =
      ("notes/" ++ uuid ++ "-" ++ NoteService.slugify title ++ ".md",
       content) :: st.files := by
  unfold NoteService.create NoteDao.create
  dsimp only [Note.new, Note.update_word_count]
  by_cases hcond :
      st.notes.any (fun m => m.id == ("note-" ++ uuid)) = true
  · simp [hcond, writeFile, String.append_assoc]
  · simp [hcond, writeFile, String.append_assoc]

/-- C8 as amended: the slug is the title lowercased with every run of
characters other than alphanumerics and underscores collapsed to a single
hyphen (alphanumerics and underscores kept verbatim, so underscores are
not turned into hyphens), trimmed of leading and trailing hyphens and
capped at 50 characters; create writes the content to
notes/(uuid)-(slug).md under the data directory. -/
theorem create_slug_amended (st : Store) (uuid title content : String)
    (t1 t2 : Int) :
    NoteService.slugify title = slugify_spec title ∧
    readFile? (NoteService.create st uuid title content t1 t2).2.files
      ("notes/" ++ uuid ++ "-" ++ slugify_spec title ++ ".md") =
      some content := by
  refine ⟨slugify_eq_slugify_spec title, ?_⟩
  rw [create_files_eq, ← slugify_eq_slugify_spec title]
  simp [readFile?]

/-- NoteService::create on a store without the fresh id: returns Ok with
the new note and appends the row after writing the file. -/
theorem create_result_eq (st : Store) (uuid title content : String)
    (t1 t2 : Int)
    (hany : (st.notes.any (fun m => m.id == ("note-" ++ uuid))) = false) :
    NoteService.create st uuid title content t1 t2 =
      (.ok (Note.update_word_count
          (Note.new ("note-" ++ uuid) title
            ("notes/" ++ (uuid ++ "-" ++ NoteService.slugify title ++ ".md"))
            t1)
          (NoteService.count_words content) t2),
       { st with
          files := ("notes/" ++
              (uuid ++ "-" ++ NoteService.slugify title ++ ".md"),
            content) :: st.files,
          notes := st.notes ++
            [Note.update_word_count
              (Note.new ("note-" ++ uuid) title
                ("notes/" ++
                  (uuid ++ "-" ++ NoteService.slugify title ++ ".md")) t1)
              (NoteService.count_words content) t2] }) := by
  unfold NoteService.create NoteDao.create writeFile
  dsimp only [Note.new, Note.update_word_count]
  simp [hany]

/-- C5: after NoteService::create of (title, content) under a fresh uuid,
NoteService::get_by_id on the new id with include_deleted = false returns
the stored note together with content identical to the input, and the
stored word_count is the whitespace-token count of that content. -/
theorem create_get_by_id_roundtrip (st : Store)
    (uuid title content : String) (t1 t2 : Int)
    (hfresh : ∀ m ∈ st.notes, m.id ≠ "note-" ++ uuid) :
    ∃ note,
      (NoteService.create st uuid title content t1 t2).1 = .ok note ∧
      NoteService.get_by_id
        (NoteService.create st uuid title content t1 t2).2
        ("note-" ++ uuid) false = some { note := note, content := content } ∧
      note.word_count = NoteService.count_words content := by
  have hany : (st.notes.any (fun m => m.id == ("note-" ++ uuid))) = false := by
    rw [Bool.eq_false_iff]
    intro htrue
    rcases List.any_eq_true.mp htrue with ⟨m, hm, hmid⟩
    exact hfresh m hm (by simpa using hmid)
  rw [create_result_eq st uuid title content t1 t2 hany]
  refine ⟨_, rfl, ?_, rfl⟩
  unfold NoteService.get_by_id NoteDao.get_by_id
  dsimp only
  rw [List.find?_append]
  have hnone : st.notes.find?
      (fun n => n.id == ("note-" ++ uuid) && (false || !n.is_deleted)) =
      none := by
    rw [List.find?_eq_none]
    intro m hm
    simp [hfresh m hm]
  rw [hnone]
  dsimp only [Note.new, Note.update_word_count]
  simp [readFile?]

/-- Witness for C5: a concrete create followed by get_by_id on a fresh
store returns the same content and a word_count of the token count. -/
theorem create_get_by_id_roundtrip_witness :
    ∃ note,
      (NoteService.create emptyStore "u2" "My Note" "alpha beta gamma"
        3 4).1 = .ok note ∧
      NoteService.get_by_id
        (NoteService.create emptyStore "u2" "My Note" "alpha beta gamma"
          3 4).2
        ("note-" ++ "u2") false =
        some { note := note, content := "alpha beta gamma" } ∧
      note.word_count = NoteService.count_words "alpha beta gamma" :=
  create_get_by_id_roundtrip emptyStore "u2" "My Note" "alpha beta gamma"
    3 4 (by decide)

/-- List-level core of the soft-delete / restore round trip: with the row
of `id` unique and found active, soft-deleting hides it from the active
view, keeps it in the include-deleted view with the deletion mark, and
restoring brings back the record with the mark cleared and every other
field untouched. -/
theorem soft_delete_restore_list (id : String) (tDel : Int) :
    ∀ (l : List Note) (n : Note),
      l.find? (fun m => m.id == id && !m.is_deleted) = some n →
      l.countP (fun m => m.id == id) ≤ 1 →
      ((l.map (fun m => if m.id == id then
          { m with is_deleted := true, deleted_at := some tDel }
        else m)).find? (fun m => m.id == id && !m.is_deleted) = none) ∧
      ((l.map (fun m => if m.id == id then
          { m with is_deleted := true, deleted_at := some tDel }
        else m)).find? (fun m => m.id == id && (true || !m.is_deleted)) =
        some { n with is_deleted := true, deleted_at := some tDel }) ∧
      (((l.map (fun m => if m.id == id then
          { m with is_deleted := true, deleted_at := some tDel }
        else m)).map (fun m => if m.id == id then
          { m with is_deleted := false, deleted_at := none }
        else m)).find? (fun m => m.id == id && !m.is_deleted) =
        some { n with is_deleted := false, deleted_at := none }) := by
  intro l
  induction l with
  | nil => intro n h; simp at h
  | cons a l ih =>
    intro n hfind hcount
    by_cases hpa : (a.id == id && !a.is_deleted) = true
    · rw [List.find?_cons_of_pos
        (p := fun (m : Note) => m.id == id && !m.is_deleted) l hpa] at hfind
      have hna : a = n := by injection hfind
      subst hna
      have hpa' := hpa
      simp only [Bool.and_eq_true] at hpa'
      obtain ⟨hid, hdel⟩ := hpa'
      have hcl : l.countP (fun m => m.id == id) = 0 := by
        have h2 : l.countP (fun m => m.id == id) + 1 ≤ 1 := by
          rw [List.countP_cons] at hcount
          rwa [hid, if_pos rfl] at hcount
        omega
      have hnone : ∀ m ∈ l, (m.id == id) = false := by
        intro m hm
        have h := List.countP_eq_zero.mp hcl m hm
        simpa using h
      have hmapl : ∀ (f : Note → Note),
          l.map (fun m => if m.id == id then f m else m) = l := by
        intro f
        have h := List.map_congr_left (l := l)
          (f := fun m => if m.id == id then f m else m)
          (g := fun m => m) (by intro m hm; simp [hnone m hm])
        simpa using h
      refine ⟨?_, ?_, ?_⟩
      · simp only [List.map_cons, hmapl, if_pos hid]
        rw [List.find?_cons_of_neg
          (p := fun (m : Note) => m.id == id && !m.is_deleted) l
          (by simp [hid])]
        rw [List.find?_eq_none]
        intro m hm
        simp [hnone m hm]
      · simp only [List.map_cons, hmapl, if_pos hid]
        rw [List.find?_cons_of_pos
          (p := fun (m : Note) => m.id == id && (true || !m.is_deleted)) l
          (by simp [hid])]
      · simp only [List.map_cons, hmapl, if_pos hid]
        rw [List.find?_cons_of_pos
          (p := fun (m : Note) => m.id == id && !m.is_deleted) l
          (by simp [hid])]
    · rw [List.find?_cons_of_neg
        (p := fun (m : Note) => m.id == id && !m.is_deleted) l hpa] at hfind
      by_cases hid : (a.id == id) = true
      · exfalso
        have hmem := List.mem_of_find?_eq_some hfind
        have hpn := List.find?_some hfind
        have hnid : (n.id == id) = true := by
          simp only [Bool.and_eq_true] at hpn
          exact hpn.1
        have hpos : 0 < l.countP (fun m => m.id == id) :=
          List.countP_pos_iff.mpr ⟨n, hmem, hnid⟩
        have h2 : l.countP (fun m => m.id == id) + 1 ≤ 1 := by
          rw [List.countP_cons] at hcount
          rwa [hid, if_pos rfl] at hcount
        omega
      · have hid' : (a.id == id) = false := by
          simpa using hid
        have hcount' : l.countP (fun m => m.id == id) ≤ 1 := by
          rw [List.countP_cons] at hcount
          rwa [hid', if_neg (by simp), Nat.add_zero] at hcount
        obtain ⟨ih1, ih2, ih3⟩ := ih n hfind hcount'
        refine ⟨?_, ?_, ?_⟩
        · rw [List.map_cons]
          rw [List.find?_cons_of_neg
            (p := fun (m : Note) => m.id == id && !m.is_deleted) _
            (by simp [hid'])]
          exact ih1
        · rw [List.map_cons]
          rw [List.find?_cons_of_neg
            (p := fun (m : Note) => m.id == id && (true || !m.is_deleted)) _
            (by simp [hid'])]
          exact ih2
        · rw [List.map_cons, List.map_cons]
          rw [List.find?_cons_of_neg
            (p := fun (m : Note) => m.id == id && !m.is_deleted) _
            (by simp [hid'])]
          exact ih3

/-- C6: for a note found active (include_deleted = false) under a unique
id, NoteService::delete then NoteService::restore restores a record equal
to the original except that deleted_at is cleared (all non-timestamp
fields, and even created_at/updated_at, are unchanged); between the two
calls the active lookup returns none while the include_deleted lookup
returns the record with its deletion mark. -/
theorem delete_restore_roundtrip (st : Store) (id : String) (n : Note)
    (tDel : Int)
    (hget : NoteDao.get_by_id st id false = some n)
    (huniq : st.notes.countP (fun m => m.id == id) ≤ 1) :
    n.is_deleted = false ∧
    NoteDao.get_by_id (NoteService.delete st id tDel).2 id false = none ∧
    NoteDao.get_by_id (NoteService.delete st id tDel).2 id true =
      some { n with is_deleted := true, deleted_at := some tDel } ∧
    NoteDao.get_by_id
      (NoteService.restore (NoteService.delete st id tDel).2 id).2 id
      false = some { n with is_deleted := false, deleted_at := none } := by
  have hget' : st.notes.find? (fun m => m.id == id && !m.is_deleted) =
      some n := by
    have h := hget
    unfold NoteDao.get_by_id at h
    simpa using h
  have hdel : n.is_deleted = false := by
    have hp := List.find?_some hget'
    simp only [Bool.and_eq_true] at hp
    simpa using hp.2
  obtain ⟨h1, h2, h3⟩ :=
    soft_delete_restore_list id tDel st.notes n hget' huniq
  refine ⟨hdel, ?_, ?_, ?_⟩
  · unfold NoteService.delete NoteDao.soft_delete NoteDao.get_by_id
    dsimp only
    simpa using h1
  · unfold NoteService.delete NoteDao.soft_delete NoteDao.get_by_id
    dsimp only
    simpa using h2
  · unfold NoteService.delete NoteService.restore NoteDao.soft_delete
      NoteDao.restore NoteDao.get_by_id
    dsimp only
    simpa using h3

/-- Witness for C6: the round trip on a one-note store. -/
theorem delete_restore_roundtrip_witness :
    (Note.new "note-1" "T" "notes/t.md" 0).is_deleted = false ∧
    NoteDao.get_by_id (NoteService.delete wStore "note-1" 9).2 "note-1"
      false = none ∧
    NoteDao.get_by_id (NoteService.delete wStore "note-1" 9).2 "note-1"
      true = some { Note.new "note-1" "T" "notes/t.md" 0 with
        is_deleted := true, deleted_at := some 9 } ∧
    NoteDao.get_by_id
      (NoteService.restore (NoteService.delete wStore "note-1" 9).2
        "note-1").2 "note-1" false =
      some { Note.new "note-1" "T" "notes/t.md" 0 with
        is_deleted := false, deleted_at := none } :=
  delete_restore_roundtrip wStore "note-1"
    (Note.new "note-1" "T" "notes/t.md" 0) 9 (by decide) (by decide)

/-- A list with at most one element satisfying `p` has all its
`p`-satisfying members equal. -/
theorem countP_le_one_unique {α : Type} (p : α → Bool) :
    ∀ (l : List α), l.countP p ≤ 1 →
      ∀ a ∈ l, ∀ b ∈ l, p a = true → p b = true → a = b := by
  intro l
  induction l with
  | nil => intro h a ha; simp at ha
  | cons c l ih =>
    intro h a ha b hb hpa hpb
    by_cases hpc : p c = true
    · have hcl : l.countP p = 0 := by
        have h2 : l.countP p + 1 ≤ 1 := by
          rw [List.countP_cons] at h
          rwa [hpc, if_pos rfl] at h
        omega
      have hno := List.countP_eq_zero.mp hcl
      have ha' : a = c := by
        rcases List.mem_cons.mp ha with h1 | h1
        · exact h1
        · exact absurd hpa (hno a h1)
      have hb' : b = c := by
        rcases List.mem_cons.mp hb with h1 | h1
        · exact h1
        · exact absurd hpb (hno b h1)
      rw [ha', hb']
    · have h' : l.countP p ≤ 1 := by
        rw [List.countP_cons] at h
        rwa [if_neg hpc, Nat.add_zero] at h
      have ha' : a ∈ l := by
        rcases List.mem_cons.mp ha with h1 | h1
        · exact absurd (h1 ▸ hpa) hpc
        · exact h1
      have hb' : b ∈ l := by
        rcases List.mem_cons.mp hb with h1 | h1
        · exact absurd (h1 ▸ hpb) hpc
        · exact h1
      exact ih h' a ha' b hb' hpa hpb

/-- C10: a title-only NoteService::update on an existing non-deleted note
with a unique id writes no file (files unchanged) and rewrites only that
note row, which keeps its content_path, word_count, created_at, is_deleted
and deleted_at, changing only title and updated_at. -/
theorem update_title_frame (st : Store) (id newTitle : String) (n : Note)
    (t1 t2 : Int)
    (hget : NoteDao.get_by_id st id false = some n)
    (huniq : st.notes.countP (fun m => m.id == id) ≤ 1) :
    NoteService.update st id (some newTitle) none t1 t2 =
      (.ok (), { st with notes := st.notes.map (fun m =>
          if m.id == id then { n with title := newTitle, updated_at := t1 }
          else m) }) := by
  have hget' : st.notes.find? (fun m => m.id == id && !m.is_deleted) =
      some n := by
    have h := hget
    unfold NoteDao.get_by_id at h
    simpa using h
  have hmem : n ∈ st.notes := List.mem_of_find?_eq_some hget'
  have hnid : (n.id == id) = true := by
    have hp := List.find?_some hget'
    simp only [Bool.and_eq_true] at hp
    exact hp.1
  have hid_eq : n.id = id := by simpa using hnid
  unfold NoteService.update
  rw [hget]
  dsimp only [Note.update_title]
  unfold NoteDao.update
  dsimp only
  have hfun : ∀ m ∈ st.notes,
      (if m.id == n.id then
        { m with title := newTitle, content_path := n.content_path,
                 updated_at := t1, word_count := n.word_count,
                 is_deleted := n.is_deleted, deleted_at := n.deleted_at }
      else m) =
      (if m.id == id then { n with title := newTitle, updated_at := t1 }
      else m) := by
    intro m hm
    rw [hid_eq]
    by_cases hmid : (m.id == id) = true
    · rw [if_pos hmid, if_pos hmid]
      have hmn : m = n :=
        countP_le_one_unique (fun x => x.id == id) st.notes huniq
          m hm n hmem hmid hnid
      rw [hmn, hid_eq]
    · rw [if_neg hmid, if_neg hmid]
  rw [List.map_congr_left hfun]

/-- Witness for C10: the title-only update on a one-note store. -/
theorem update_title_frame_witness :
    NoteService.update wStore "note-1" (some "New") none 5 6 =
      (.ok (), { wStore with notes := wStore.notes.map (fun m =>
          if m.id == "note-1" then
            { Note.new "note-1" "T" "notes/t.md" 0 with
                title := "New", updated_at := 5 }
          else m) }) :=
  update_title_frame wStore "note-1" "New"
    (Note.new "note-1" "T" "notes/t.md" 0) 5 6 (by decide) (by decide)

/-- An add with is_primary = false never changes the number of primary
rows of any note (it appends a non-primary row, or fails). -/
theorem primaryCount_add_false (st : Store) (nid fid : String)
    (pos now : Int) (n : String) :
    primaryCount ((NoteFolderDao.add st nid fid false pos now).2) n =
      primaryCount st n := by
  unfold NoteFolderDao.add primaryCount
  split
  · rfl
  · split
    · rfl
    · dsimp only
      rw [List.countP_append]
      simp [List.countP_cons]

/-- Any count of a (note, folder) pair over one row is at most one. -/
theorem countP_singleton_le_one {α : Type} (q : α → Bool) (r : α) :
    List.countP q [r] ≤ 1 := by
  rw [List.countP_cons, List.countP_nil]
  split <;> omega

/-- NoteFolderDao::add keeps the primary-key invariant: at most one row
per (note_id, folder_id) pair. -/
theorem pairCount_add_le_one (st : Store) (nid fid : String) (pr : Bool)
    (pos now : Int) (hpk : ∀ a b, pairCount st a b ≤ 1) (a b : String) :
    pairCount ((NoteFolderDao.add st nid fid pr pos now).2) a b ≤ 1 := by
  unfold NoteFolderDao.add pairCount
  split
  · exact hpk a b
  · split
    · exact hpk a b
    · rename_i h1 h2
      dsimp only
      rw [List.countP_append]
      by_cases hab : a = nid ∧ b = fid
      · obtain ⟨ha, hb⟩ := hab
        have h0 : st.note_folders.countP
            (fun (r : NoteFolderRow) =>
              r.note_id == a && r.folder_id == b) = 0 := by
          rw [List.countP_eq_zero]
          intro r hr hc
          apply h1
          rw [List.any_eq_true]
          refine ⟨r, hr, ?_⟩
          rw [← ha, ← hb]
          exact hc
        rw [h0, Nat.zero_add]
        exact countP_singleton_le_one _ _
      · have h0 : List.countP
            (fun (r : NoteFolderRow) => r.note_id == a && r.folder_id == b)
            [{ note_id := nid, folder_id := fid, is_primary := pr,
               position := pos, created_at := now }] = 0 := by
          rw [List.countP_eq_zero]
          intro r hr hc
          simp at hr
          subst hr
          simp at hc
          exact hab ⟨hc.1.symm, hc.2.symm⟩
        rw [h0, Nat.add_zero]
        exact hpk a b

/-- set_primary only flips is_primary flags, so pair multiplicities are
untouched. -/
theorem pairCount_set_primary (st : Store) (n f a b : String) :
    pairCount (NoteFolderDao.set_primary st n f) a b = pairCount st a b := by
  unfold NoteFolderDao.set_primary NoteFolderDao.set_primary_step1
    NoteFolderDao.set_primary_step2 pairCount
  dsimp only
  rw [List.countP_map, List.countP_map]
  apply List.countP_congr
  intro r _
  by_cases h1 : (r.note_id == n) = true
  · by_cases h2 : (r.folder_id == f) = true
    · simp [Function.comp, h1, h2]
    · simp [Function.comp, h1, h2]
  · simp [Function.comp, h1]

/-- After set_primary(n, f), the primary rows of n are exactly its rows
for folder f. -/
theorem primaryCount_set_primary_self (st : Store) (n f : String) :
    primaryCount (NoteFolderDao.set_primary st n f) n = pairCount st n f := by
  unfold NoteFolderDao.set_primary NoteFolderDao.set_primary_step1
    NoteFolderDao.set_primary_step2 primaryCount pairCount
  dsimp only
  rw [List.countP_map, List.countP_map]
  apply List.countP_congr
  intro r _
  by_cases h1 : (r.note_id == n) = true
  · by_cases h2 : (r.folder_id == f) = true
    · simp [Function.comp, h1, h2]
    · simp [Function.comp, h1, h2]
  · simp [Function.comp, h1]

/-- set_primary of one note leaves the primary rows of every other note
unchanged. -/
theorem primaryCount_set_primary_other (st : Store) (n f m : String)
    (hne : m ≠ n) :
    primaryCount (NoteFolderDao.set_primary st n f) m = primaryCount st m := by
  unfold NoteFolderDao.set_primary NoteFolderDao.set_primary_step1
    NoteFolderDao.set_primary_step2 primaryCount
  dsimp only
  rw [List.countP_map, List.countP_map]
  apply List.countP_congr
  intro r _
  by_cases h1 : (r.note_id == n) = true
  · have hm : (r.note_id == m) = false := by
      have h2 : r.note_id = n := by simpa using h1
      rw [h2]
      exact beq_eq_false_iff_ne.mpr (Ne.symm hne)
    by_cases h2 : (r.folder_id == f) = true
    · simp [Function.comp, h1, h2, hm]
    · simp [Function.comp, h1, h2, hm]
  · simp [Function.comp, h1]

/-- C2 as amended: over any finite sequence of NoteFolderDao::add /
NoteFolderDao::set_primary calls in which every add passes
is_primary = false, a store satisfying the (note_id, folder_id) primary
key and holding at most one primary row for the note keeps at most one
primary row for it.  (An add with is_primary = true does not clear
existing primaries, so the unrestricted claim fails; see the
counterexample.) -/
theorem primary_exclusive_of_nonprimary_adds (n : String) :
    ∀ (ops : List NFOp) (st : Store),
      (∀ nid fid pr pos t, NFOp.add nid fid pr pos t ∈ ops → pr = false) →
      (∀ a b, pairCount st a b ≤ 1) →
      primaryCount st n ≤ 1 →
      primaryCount (applyNFOps st ops) n ≤ 1 := by
  intro ops
  induction ops with
  | nil =>
    intro st _ _ hinv
    simpa [applyNFOps] using hinv
  | cons op ops ih =>
    intro st hops hpk hinv
    have hstep : applyNFOps st (op :: ops) = applyNFOps (applyNFOp st op) ops :=
      rfl
    rw [hstep]
    have hops' : ∀ nid fid pr pos t,
        NFOp.add nid fid pr pos t ∈ ops → pr = false := by
      intro nid fid pr pos t hmem
      exact hops nid fid pr pos t (List.mem_cons_of_mem _ hmem)
    cases op with
    | add nid fid pr pos t =>
      have hpr : pr = false := hops nid fid pr pos t (List.mem_cons_self _ _)
      subst hpr
      apply ih (applyNFOp st (NFOp.add nid fid false pos t)) hops'
      · intro a b
        exact pairCount_add_le_one st nid fid false pos t hpk a b
      · rw [show applyNFOp st (NFOp.add nid fid false pos t) =
            (NoteFolderDao.add st nid fid false pos t).2 from rfl]
        rw [primaryCount_add_false]
        exact hinv
    | set_primary nid fid =>
      apply ih (applyNFOp st (NFOp.set_primary nid fid)) hops'
      · intro a b
        rw [show applyNFOp st (NFOp.set_primary nid fid) =
            NoteFolderDao.set_primary st nid fid from rfl]
        rw [pairCount_set_primary]
        exact hpk a b
      · rw [show applyNFOp st (NFOp.set_primary nid fid) =
            NoteFolderDao.set_primary st nid fid from rfl]
        by_cases hn : n = nid
        · subst hn
          rw [primaryCount_set_primary_self]
          exact hpk n fid
        · rw [primaryCount_set_primary_other st nid fid n hn]
          exact hinv

/-- Witness for C2 as amended: a non-primary add followed by a
set_primary on a one-note two-folder store keeps at most one primary. -/
theorem primary_exclusive_of_nonprimary_adds_witness :
    primaryCount (applyNFOps nfStore
      [NFOp.add "note-1" "folder-1" false 0 0,
       NFOp.set_primary "note-1" "folder-2"]) "note-1" ≤ 1 :=
  primary_exclusive_of_nonprimary_adds "note-1"
    [NFOp.add "note-1" "folder-1" false 0 0,
     NFOp.set_primary "note-1" "folder-2"] nfStore
    (by
      intro nid fid pr pos t hmem
      simp [List.mem_cons] at hmem
      exact hmem.2.2.1)
    (by intro a b; simp [pairCount, nfStore, emptyStore])
    (by simp [primaryCount, nfStore, emptyStore])
